import Mathlib

/-!
Verification of the cbt-rls-test-go harness (main.go).

The harness drives a managed Bigtable-like storage service through an admin
client and a data client. We shallowly embed the harness functions
(createTable, createDataClient, writeToTable, readSingleRowFromTable,
readEntireTable, and the tail of main) as pure Lean functions over explicit
state, with remote-call failures injected through fault parameters, and prove
the specified properties about them. The route resolver of the specification
has no code in the repository and is modelled from the spec.
-/

/-- Errors as seen by the Go harness: gRPC status errors carry a code and a
message (status.FromError succeeds on them), non-status errors do not, and
harness-made errors are those built with fmt.Errorf. -/
inductive BtError where
  | statusErr (code : Nat) (msg : String)
  | nonStatus (msg : String)
  | harnessErr (msg : String)
  deriving DecidableEq, Repr

/-- The gRPC status code of an error, when status.FromError succeeds on it
and yields a real status (codes.NotFound is 5). -/
def BtError.code? : BtError → Option Nat
  | .statusErr c _ => some c
  | .nonStatus _ => none
  | .harnessErr _ => none

/-- The message carried by an error, as rendered by the %v or %s verbs. -/
def BtError.msgOf : BtError → String
  | .statusErr _ m => m
  | .nonStatus m => m
  | .harnessErr m => m

instance {ε α : Type} [DecidableEq ε] [DecidableEq α] : DecidableEq (Except ε α) := fun a b =>
  match a, b with
  | .ok x, .ok y =>
    if h : x = y then isTrue (h ▸ rfl) else isFalse fun hh => h (Except.ok.inj hh)
  | .error x, .error y =>
    if h : x = y then isTrue (h ▸ rfl) else isFalse fun hh => h (Except.error.inj hh)
  | .ok _, .error _ => isFalse fun hh => Except.noConfusion hh
  | .error _, .ok _ => isFalse fun hh => Except.noConfusion hh

/-- Rendering of a string under the %q verb of fmt (escaping elided; none of
the harness inputs need it). -/
def goQuote (s : String) : String := "\"" ++ s ++ "\""

/-- codes.NotFound of gRPC. -/
def notFoundCode : Nat := 5

/-- codes.AlreadyExists of gRPC. -/
def alreadyExistsCode : Nat := 6

/-- Admin-side service state: the existing tables, each with its list of
column families. -/
abbrev AdminState := List (String × List String)

/-- First-match lookup of a table by name in the admin state. -/
def lookupT : AdminState → String → Option (List String)
  | [], _ => none
  | (k, v) :: rest, t => if k = t then some v else lookupT rest t

/-- Removal of a table by name from the admin state. -/
def removeT : AdminState → String → AdminState
  | [], _ => []
  | (k, v) :: rest, t => if k = t then removeT rest t else (k, v) :: removeT rest t

/-- Addition of a column family to the first table with the given name. -/
def addCF : AdminState → String → String → AdminState
  | [], _, _ => []
  | (k, v) :: rest, t, cf => if k = t then (k, v ++ [cf]) :: rest else (k, v) :: addCF rest t cf

/-- The remote TableInfo RPC: an injected fault is returned as is; otherwise
the call succeeds exactly when the table exists, and fails with a NotFound
status otherwise. -/
def tableInfoRPC (fault : Option BtError) (s : AdminState) (t : String) : Except BtError Unit :=
  match fault with
  | some e => .error e
  | none => if (lookupT s t).isSome then .ok () else .error (.statusErr notFoundCode ("table " ++ t ++ " not found"))

/-- The remote CreateTable RPC: an injected fault is returned as is; otherwise
the call creates the table with no column families, or fails with an
AlreadyExists status when the table exists. -/
def createTableRPC (fault : Option BtError) (s : AdminState) (t : String) : Except BtError AdminState :=
  match fault with
  | some e => .error e
  | none =>
    if (lookupT s t).isSome then .error (.statusErr alreadyExistsCode ("table " ++ t ++ " already exists"))
    else .ok ((t, []) :: s)

/-- The remote CreateColumnFamily RPC: an injected fault is returned as is;
otherwise the call adds the family to the table, failing with NotFound when
the table does not exist and AlreadyExists when the family does. -/
def createColumnFamilyRPC (fault : Option BtError) (s : AdminState) (t cf : String) : Except BtError AdminState :=
  match fault with
  | some e => .error e
  | none =>
    match lookupT s t with
    | none => .error (.statusErr notFoundCode ("table " ++ t ++ " not found"))
    | some fams =>
      if cf ∈ fams then .error (.statusErr alreadyExistsCode ("family " ++ cf ++ " already exists"))
      else .ok (addCF s t cf)

/-- The remote DeleteTable RPC: an injected fault is returned as is; otherwise
the call removes the table, failing with NotFound when it does not exist. -/
def deleteTableRPC (fault : Option BtError) (s : AdminState) (t : String) : Except BtError AdminState :=
  match fault with
  | some e => .error e
  | none =>
    if (lookupT s t).isSome then .ok (removeT s t)
    else .error (.statusErr notFoundCode ("table " ++ t ++ " not found"))

/-- The admin RPCs invoked during a run, recorded in invocation order. -/
inductive AdminOp where
  | tableInfoOp (t : String)
  | createTableOp (t : String)
  | createCFOp (t cf : String)
  | deleteTableOp (t : String)
  deriving DecidableEq, Repr

/-- Faults injected into the three admin RPCs a createTable call can make. -/
structure CreateTableFaults where
  tiF : Option BtError
  ctF : Option BtError
  cfF : Option BtError
  deriving DecidableEq, Repr

/-- Embedding of createTable of main.go: probe the table with TableInfo and
return early on success; surface non-status and non-NotFound status errors
wrapped by fmt.Errorf; on NotFound, create the table and then the column
family, wrapping either failure. Also returns the resulting admin state and
the trace of RPCs invoked. -/
def createTable (f : CreateTableFaults) (s : AdminState) (tableID columnFamily : String) :
    Except BtError Unit × AdminState × List AdminOp :=
  match tableInfoRPC f.tiF s tableID with
  | .ok _ => (.ok (), s, [.tableInfoOp tableID])
  | .error e =>
    match e.code? with
    | none =>
      (.error (.harnessErr ("failed to read table " ++ goQuote tableID ++ ": " ++ e.msgOf)), s, [.tableInfoOp tableID])
    | some c =>
      if c ≠ notFoundCode then
        (.error (.harnessErr ("failed to read rable " ++ goQuote tableID ++ ": " ++ e.msgOf)), s, [.tableInfoOp tableID])
      else
        match createTableRPC f.ctF s tableID with
        | .error e2 =>
          (.error (.harnessErr ("table creation using admin client failed: " ++ e2.msgOf)), s,
            [.tableInfoOp tableID, .createTableOp tableID])
        | .ok s2 =>
          match createColumnFamilyRPC f.cfF s2 tableID columnFamily with
          | .error e3 =>
            (.error (.harnessErr ("column family creation using admin client failed: " ++ e3.msgOf)), s2,
              [.tableInfoOp tableID, .createTableOp tableID, .createCFOp tableID columnFamily])
          | .ok s3 =>
            (.ok (), s3, [.tableInfoOp tableID, .createTableOp tableID, .createCFOp tableID columnFamily])

/-! Data-plane model: rows, cells, mutations, and the write and read stages. -/

/-- One cell as set by Mutation.Set of the Bigtable client: column family,
column qualifier, a write-time timestamp (bigtable.Now), and a byte value
rendered as a string. -/
structure Cell where
  family : String
  qualifier : String
  ts : Nat
  value : String
  deriving DecidableEq, Repr

/-- Data-side table state: rows in insertion order, each a row key with its
cells. -/
abbrev TableState := List (String × List Cell)

/-- First-match lookup of a row by key. -/
def lookupRow : TableState → String → Option (List Cell)
  | [], _ => none
  | (k, v) :: rest, t => if k = t then some v else lookupRow rest t

/-- Application of a mutation (a list of cell sets) to a row: the cells are
appended to an existing row, or a fresh row is created. -/
def applyMut : TableState → String → List Cell → TableState
  | [], k, m => [(k, m)]
  | (rk, cs) :: rest, k, m =>
    if rk = k then (rk, cs ++ m) :: rest else (rk, cs) :: applyMut rest k m

/-- Model of fmt.Sprintf "%s%d" for a string and a natural number, the form
used for row keys (the loop index is non-negative). -/
def sprintfSD (s : String) (i : Nat) : String := s ++ Nat.repr i

/-- The fixed greetings written by writeToTable, verbatim from main.go. -/
def greetings : List String := ["Hello World!", "Hello Bigtable!", "Hello Golang!"]

/-- The loop body of writeToTable from index i onward: build a one-cell
mutation with a write-time timestamp (clock i models bigtable.Now at that
iteration), apply it to the row key sprintfSD pre i, and stop at the first
Apply error (fa injects Apply faults by index). Returns the outcome, the
resulting table state, and the trace of attempted (rowKey, mutation) pairs in
order. -/
def writeLoop (fa : Nat → Option BtError) (clock : Nat → Nat) (cf cq pre : String) :
    Nat → List String → TableState → Except BtError Unit × TableState × List (String × List Cell)
  | _, [], st => (.ok (), st, [])
  | i, g :: gs, st =>
    let m : List Cell := [⟨cf, cq, clock i, g⟩]
    let key := sprintfSD pre i
    match fa i with
    | some e => (.error e, st, [(key, m)])
    | none =>
      match writeLoop fa clock cf cq pre (i + 1) gs (applyMut st key m) with
      | (r, st2, tr) => (r, st2, (key, m) :: tr)

/-- Embedding of writeToTable of main.go: open the table and apply one
mutation per greeting to keys built from the row-key prefix and the loop
index, returning on the first failure. -/
def writeToTable (openOk : Bool) (fa : Nat → Option BtError) (clock : Nat → Nat)
    (st : TableState) (tableID cf cq pre : String) :
    Except BtError Unit × TableState × List (String × List Cell) :=
  if openOk then writeLoop fa clock cf cq pre 0 greetings st
  else (.error (.harnessErr ("failed to open table " ++ goQuote tableID)), st, [])

/-- One line as logged for a cell by the read paths: the Go ReadItem carries
the column as family:qualifier and repeats the row key. -/
structure PrintedCell where
  family : String
  rowKey : String
  column : String
  ts : Nat
  value : String
  deriving DecidableEq, Repr

/-- The log lines produced for the cells of one row. -/
def printCells (rk : String) (cs : List Cell) : List PrintedCell :=
  cs.map fun c => ⟨c.family, rk, c.family ++ ":" ++ c.qualifier, c.ts, c.value⟩

/-- Embedding of readSingleRowFromTable of main.go: open the table, read the
row keyed sprintfSD pre 0 and print its cells (a missing row is an empty row,
not an error). Returns the outcome, the key queried (none when the open
failed before the read), and the printed cells. -/
def readSingleRowFromTable (openOk : Bool) (rrFault : Option BtError) (st : TableState)
    (tableID pre : String) : Except BtError Unit × Option String × List PrintedCell :=
  if openOk then
    let rowKey := sprintfSD pre 0
    match rrFault with
    | some _ => (.error (.harnessErr ("failed to read row " ++ goQuote rowKey)), some rowKey, [])
    | none => (.ok (), some rowKey, printCells rowKey ((lookupRow st rowKey).getD []))
  else (.error (.harnessErr ("failed to open table " ++ goQuote tableID)), none, [])

/-- The rows of bigtable.PrefixRange pre: exactly those whose key starts with
pre, in table order. -/
def prefixRange (pre : String) (st : TableState) : TableState :=
  st.filter fun r => String.isPrefixOf pre r.1

/-- Model of Table.ReadRows delivering rows to a callback: each delivered row
is recorded, and iteration continues only while the callback returns true. -/
def runScan (f : String × List Cell → Bool) : TableState → TableState
  | [] => []
  | r :: rs => r :: (if f r then runScan f rs else [])

/-- The printRow callback of readEntireTable: prints a row and always
continues the scan. -/
def printRowCont : String × List Cell → Bool := fun _ => true

/-- Embedding of readEntireTable of main.go: open the table and scan
bigtable.PrefixRange of the row-key prefix with the printRow callback.
Returns the outcome, the rows the callback visited, and the printed cells. -/
def readEntireTable (openOk : Bool) (scanFault : Option BtError) (st : TableState)
    (tableID pre : String) : Except BtError Unit × TableState × List PrintedCell :=
  if openOk then
    match scanFault with
    | some e =>
      (.error (.harnessErr ("failed to read rows from table " ++ goQuote tableID ++ ": " ++ e.msgOf)), [], [])
    | none =>
      let visited := runScan printRowCont (prefixRange pre st)
      (.ok (), visited, visited.flatMap fun r => printCells r.1 r.2)
  else (.error (.harnessErr ("failed to open table " ++ goQuote tableID)), [], [])

/-! Data client construction and the RLS service config document. -/

/-- The CBT test data endpoint of main.go. -/
def cbtDataTestEndpoint : String := "dns:///test-bigtable.sandbox.googleapis.com"

/-- The CBT test RLS endpoint of main.go. -/
def cbtRLSTestEndpoint : String := "dns:///test-bigtablerls.sandbox.googleapis.com"

/-- The fixed RLS default target of main.go. -/
def rlsDefaultTarget : String := "dns:///test-bigtable.sandbox.googleapis.com"

/-- The service config for the RLS LB policy, verbatim from main.go: a raw
JSON template whose lookupService and defaultTarget fields are filled in by
fmt.Sprintf. -/
def serviceConfigTmpl : String :=
  "\n" ++
  "\x7b\n" ++
  "  \"loadBalancingConfig\": [\n" ++
  "    \x7b\n" ++
  "      \"rls_experimental\": \x7b\n" ++
  "        \"routeLookupConfig\": \x7b\n" ++
  "          \"grpcKeybuilders\": [\n" ++
  "            \x7b\n" ++
  "              \"names\": [\n" ++
  "                \x7b\n" ++
  "                  \"service\": \"google.bigtable.v2.Bigtable\"\n" ++
  "                \x7d\n" ++
  "              ],\n" ++
  "              \"headers\": [\n" ++
  "                \x7b\n" ++
  "                  \"key\": \"x-goog-request-params\",\n" ++
  "                  \"names\": [\"x-goog-request-params\"]\n" ++
  "                \x7d,\n" ++
  "                \x7b\n" ++
  "                  \"key\": \"google-cloud-resource-prefix\",\n" ++
  "                  \"names\": [\"google-cloud-resource-prefix\"]\n" ++
  "                \x7d\n" ++
  "              ],\n" ++
  "              \"extraKeys\": \x7b\n" ++
  "                \"host\": \"server\",\n" ++
  "                \"service\": \"service\",\n" ++
  "                \"method\": \"method\"\n" ++
  "              \x7d\n" ++
  "            \x7d\n" ++
  "          ],\n" ++
  "          \"lookupService\": \"%s\",\n" ++
  "          \"lookupServiceTimeout\" : \"10s\",\n" ++
  "          \"maxAge\": \"300s\",\n" ++
  "          \"staleAge\" : \"240s\",\n" ++
  "          \"cacheSizeBytes\": 1000,\n" ++
  "          \"defaultTarget\": \"%s\"\n" ++
  "        \x7d,\n" ++
  "        \"routeLookupChannelServiceConfig\": \x7b\n" ++
  "          \"loadBalancingConfig\": [\x7b\"grpclb\": \x7b\"childPolicy\": [\x7b\"pick_first\": \x7b\x7d \x7d] \x7d\x7d]\n" ++
  "        \x7d,\n" ++
  "        \"childPolicy\": [\n" ++
  "          \x7b\n" ++
  "            \"grpclb\": \x7b\n" ++
  "              \"childPolicy\": [\n" ++
  "                \x7b\n" ++
  "                  \"pick_first\": \x7b\x7d\n" ++
  "                \x7d\n" ++
  "              ]\n" ++
  "            \x7d\n" ++
  "          \x7d\n" ++
  "        ],\n" ++
  "        \"childPolicyConfigTargetFieldName\": \"serviceName\"\n" ++
  "      \x7d\n" ++
  "    \x7d\n" ++
  "  ]\n" ++
  "\x7d"

/-- Model of fmt.Sprintf on a template whose only verbs are %s: scan the
template left to right, replacing each %s with the next argument; substituted
text is emitted verbatim and never rescanned. A verb beyond the argument list
renders as %!s(MISSING), as fmt does. -/
def substVerbs : List Char → List String → List Char
  | [], _ => []
  | '%' :: 's' :: rest, a :: args => a.data ++ substVerbs rest args
  | '%' :: 's' :: rest, [] => '%' :: '!' :: 's' :: ("(MISSING)".data ++ substVerbs rest [])
  | c :: rest, args => c :: substVerbs rest args

/-- The number of %s verbs a template contains. -/
def verbCount : List Char → Nat
  | [] => 0
  | '%' :: 's' :: rest => 1 + verbCount rest
  | _ :: rest => verbCount rest

/-- fmt.Sprintf of a two-verb template at two string arguments. -/
def sprintf2 (tmpl a b : String) : String := String.mk (substVerbs tmpl.data [a, b])

/-- Sliding substring check over character lists. -/
def isInfixL (n : List Char) : List Char → Bool
  | [] => n.isEmpty
  | c :: rest => n.isPrefixOf (c :: rest) || isInfixL n rest

/-- Substring containment on strings. -/
def strContains (hay needle : String) : Bool := isInfixL needle.data hay.data

/-- The gRPC dial options createDataClient passes to grpc.Dial: service
config lookup disabled, the default service config set to the substituted
template, and 256 MiB message-size caps. -/
structure DialOptions where
  disableServiceConfig : Bool
  defaultServiceConfig : String
  maxSendMsgSize : Nat
  maxRecvMsgSize : Nat
  deriving DecidableEq, Repr

/-- A dialled connection: the endpoint and the options handed to the
transport. -/
structure GrpcConn where
  endpoint : String
  opts : DialOptions
  deriving DecidableEq, Repr

/-- The constructed data client: its project, instance, underlying
connection, and the app profile recorded in its config (none when
bigtable.NewClient was used without a config). -/
structure ClientSpec where
  project : String
  instanceID : String
  conn : GrpcConn
  appProfile : Option String
  deriving DecidableEq, Repr

/-- The dial options createDataClient builds for a given
enable_default_target flag value: the default target is the fixed RLS target
when enabled and the empty string otherwise, and the service config is the
template with the RLS endpoint and that default target substituted. -/
def dialOptionsFor (enableDefaultTarget : Bool) : DialOptions :=
  { disableServiceConfig := true
    defaultServiceConfig :=
      sprintf2 serviceConfigTmpl cbtRLSTestEndpoint (if enableDefaultTarget then rlsDefaultTarget else "")
    maxSendMsgSize := 2 ^ 28
    maxRecvMsgSize := 2 ^ 28 }

/-- Embedding of createDataClient of main.go: dial the endpoint with the
RLS service config installed, then build the client, with an explicit
AppProfile config exactly when the app_profile flag is non-empty. Failures of
grpc.Dial and of client construction are injected as faults. -/
def createDataClient (project instanceID endpoint appProfile : String)
    (enableDefaultTarget : Bool) (dialFault newClientFault : Option BtError) :
    Except BtError ClientSpec :=
  match dialFault with
  | some e => .error e
  | none =>
    let cc : GrpcConn := { endpoint := endpoint, opts := dialOptionsFor enableDefaultTarget }
    match newClientFault with
    | some e => .error e
    | none =>
      if appProfile ≠ "" then
        .ok { project := project, instanceID := instanceID, conn := cc, appProfile := some appProfile }
      else
        .ok { project := project, instanceID := instanceID, conn := cc, appProfile := none }

/-! The route resolver of spec section 4.1. The repository contains no
route-resolver code (the RLS policy is implemented by the gRPC library the
harness only configures), so this component is modelled from the spec. -/

/-- Modelled from the spec: a route-key pattern of the route resolver
(section 4.1), which the repository does not implement. Patterns may be exact
or wildcard; a route key is an ordered tuple of strings. -/
inductive Pattern where
  | exact (k : List String)
  | wildcard
  deriving DecidableEq, Repr

/-- Modelled from the spec: whether a pattern matches a route key. A wildcard
matches every key; an exact pattern matches exactly its own key. -/
def Pattern.matchesKey : Pattern → List String → Bool
  | .wildcard, _ => true
  | .exact p, k => p == k

/-- Modelled from the spec: a rule of the routing table maps a route-key
pattern to a destination target string. -/
structure Rule where
  pat : Pattern
  target : String
  deriving DecidableEq, Repr

/-- Modelled from the spec: the failure mode of the resolver when no rule
matches and no default target is configured. -/
inductive RouteError where
  | noRoute
  deriving DecidableEq, Repr

/-- Modelled from the spec: the route resolver of section 4.1. Rules are
iterated in table order and the first rule whose pattern matches the key
wins; with no match the configured default target is returned, an empty
default standing for none (spec scenario 5), in which case resolution fails
with NoRouteError. -/
def resolveRoute : List Rule → String → List String → Except RouteError String
  | [], dflt, _ => if dflt ≠ "" then .ok dflt else .error .noRoute
  | r :: rs, dflt, k => if r.pat.matchesKey k then .ok r.target else resolveRoute rs dflt k

/-- The number of rules of a table whose pattern matches a key. -/
def matchCount (rules : List Rule) (k : List String) : Nat :=
  (rules.filter fun r => r.pat.matchesKey k).length

/-! The end of main: the harness pipeline and its optional teardown. -/

/-- The command-line configuration of one run, one field per flag of
main.go. -/
structure MainConfig where
  project : String
  instanceID : String
  tableID : String
  columnFamily : String
  columnQualifier : String
  rowKeyPre : String
  appProfile : String
  enableDefaultTarget : Bool
  skipTableDeletion : Bool

/-- Faults injected into the remote calls a run can make, in program
order. -/
structure MainFaults where
  adminClientF : Option BtError
  dialF : Option BtError
  newClientF : Option BtError
  adminF : CreateTableFaults
  openW : Bool
  applyF : Nat → Option BtError
  openR1 : Bool
  rrF : Option BtError
  openR2 : Bool
  scanF : Option BtError
  delF : Option BtError

/-- The stages main attempts, recorded in program order. -/
inductive MainOp where
  | opAdminClient
  | opDataClient
  | opCreateTable
  | opWrite
  | opReadRow
  | opScan
  | opDelete
  deriving DecidableEq, Repr

/-- Embedding of main of main.go after flag parsing: each stage runs in
order and any failure aborts the run (log.Fatalf); when every stage up to the
full-table read succeeded, the table is deleted unless the
skip_table_deletion flag is set, in which case main returns with the table
left in place. Returns the final admin and table states, the trace of stages
attempted, and whether the run finished without a fatal error. -/
def mainRun (cfg : MainConfig) (f : MainFaults) (clock : Nat → Nat)
    (a : AdminState) (d : TableState) : AdminState × TableState × List MainOp × Bool :=
  match f.adminClientF with
  | some _ => (a, d, [.opAdminClient], false)
  | none =>
    match createDataClient cfg.project cfg.instanceID cbtDataTestEndpoint cfg.appProfile
        cfg.enableDefaultTarget f.dialF f.newClientF with
    | .error _ => (a, d, [.opAdminClient, .opDataClient], false)
    | .ok _ =>
      match createTable f.adminF a cfg.tableID cfg.columnFamily with
      | (.error _, a1, _) => (a1, d, [.opAdminClient, .opDataClient, .opCreateTable], false)
      | (.ok _, a1, _) =>
        match writeToTable f.openW f.applyF clock d cfg.tableID cfg.columnFamily
            cfg.columnQualifier cfg.rowKeyPre with
        | (.error _, d1, _) =>
          (a1, d1, [.opAdminClient, .opDataClient, .opCreateTable, .opWrite], false)
        | (.ok _, d1, _) =>
          match readSingleRowFromTable f.openR1 f.rrF d1 cfg.tableID cfg.rowKeyPre with
          | (.error _, _, _) =>
            (a1, d1, [.opAdminClient, .opDataClient, .opCreateTable, .opWrite, .opReadRow], false)
          | (.ok _, _, _) =>
            match readEntireTable f.openR2 f.scanF d1 cfg.tableID cfg.rowKeyPre with
            | (.error _, _, _) =>
              (a1, d1,
                [.opAdminClient, .opDataClient, .opCreateTable, .opWrite, .opReadRow, .opScan], false)
            | (.ok _, _, _) =>
              if cfg.skipTableDeletion then
                (a1, d1,
                  [.opAdminClient, .opDataClient, .opCreateTable, .opWrite, .opReadRow, .opScan], true)
              else
                match deleteTableRPC f.delF a1 cfg.tableID with
                | .error _ =>
                  (a1, d1,
                    [.opAdminClient, .opDataClient, .opCreateTable, .opWrite, .opReadRow, .opScan,
                      .opDelete], false)
                | .ok a2 =>
                  (a2, d1,
                    [.opAdminClient, .opDataClient, .opCreateTable, .opWrite, .opReadRow, .opScan,
                      .opDelete], true)

/-- Whether an Except value is a success. -/
def isOkE {ε α : Type} : Except ε α → Bool
  | .ok _ => true
  | .error _ => false

/-! Shared helper lemmas. -/

theorem isPrefixOf_self (l : List Char) : l.isPrefixOf l = true := by
  induction l with
  | nil => rfl
  | cons c m ih => simp [List.isPrefixOf, ih]

theorem isInfixL_append_self (n xs : List Char) : isInfixL n (xs ++ n) = true := by
  induction xs with
  | nil =>
    cases n with
    | nil => rfl
    | cons c m => simp [isInfixL, isPrefixOf_self]
  | cons c xs ih => simp [isInfixL, ih]

theorem strContains_append_right (a b : String) : strContains (a ++ b) b = true := by
  show isInfixL b.data (a ++ b).data = true
  have hd : (a ++ b).data = a.data ++ b.data := rfl
  rw [hd]
  exact isInfixL_append_self b.data a.data

theorem runScan_const_true (rows : TableState) : runScan printRowCont rows = rows := by
  induction rows with
  | nil => rfl
  | cons r rs ih => simp [runScan, printRowCont, ih]

theorem lookupT_removeT_self (a : AdminState) (t : String) : lookupT (removeT a t) t = none := by
  induction a with
  | nil => rfl
  | cons p rest ih =>
    obtain ⟨k, v⟩ := p
    by_cases hk : k = t
    · simp [removeT, hk, ih]
    · simp [removeT, lookupT, hk, ih]

theorem tableInfoRPC_ok_inv (fault : Option BtError) (s : AdminState) (t : String)
    (h : tableInfoRPC fault s t = .ok ()) : fault = none ∧ (lookupT s t).isSome = true := by
  unfold tableInfoRPC at h
  cases fault with
  | some e => simp at h
  | none =>
    by_cases hl : (lookupT s t).isSome
    · exact ⟨rfl, hl⟩
    · rw [if_neg hl] at h; simp at h

theorem createTableRPC_ok_inv (fault : Option BtError) (s : AdminState) (t : String)
    (s2 : AdminState) (h : createTableRPC fault s t = .ok s2) :
    fault = none ∧ lookupT s t = none ∧ s2 = (t, []) :: s := by
  unfold createTableRPC at h
  cases fault with
  | some e => simp at h
  | none =>
    by_cases hl : (lookupT s t).isSome
    · rw [if_pos hl] at h; simp at h
    · rw [if_neg hl] at h
      exact ⟨rfl, Option.not_isSome_iff_eq_none.mp hl, (Except.ok.inj h).symm⟩

theorem createColumnFamilyRPC_ok_inv (fault : Option BtError) (s : AdminState) (t cf : String)
    (s3 : AdminState) (h : createColumnFamilyRPC fault s t cf = .ok s3) :
    fault = none ∧ ∃ fams, lookupT s t = some fams ∧ cf ∉ fams ∧ s3 = addCF s t cf := by
  unfold createColumnFamilyRPC at h
  cases fault with
  | some e => simp at h
  | none =>
    cases hl : lookupT s t with
    | none => rw [hl] at h; simp at h
    | some fams =>
      rw [hl] at h
      by_cases hm : cf ∈ fams
      · simp [hm] at h
      · simp [hm] at h
        exact ⟨rfl, fams, rfl, hm, h.symm⟩

theorem createTable_ok_cases (f : CreateTableFaults) (s : AdminState) (t cf : String)
    (s' : AdminState) (ops : List AdminOp)
    (h : createTable f s t cf = (.ok (), s', ops)) :
    (s' = s ∧ ops = [.tableInfoOp t] ∧ (lookupT s t).isSome = true) ∨
    (s' = (t, [cf]) :: s ∧ ops = [.tableInfoOp t, .createTableOp t, .createCFOp t cf] ∧
      lookupT s t = none) := by
  unfold createTable at h
  split at h
  · next u heq =>
    left
    simp only [Prod.mk.injEq] at h
    obtain ⟨-, hs, hops⟩ := h
    obtain ⟨-, hl⟩ := tableInfoRPC_ok_inv f.tiF s t (by cases u; exact heq)
    exact ⟨hs.symm, hops.symm, hl⟩
  · next e heq =>
    right
    split at h
    · simp at h
    · next c hc =>
      split at h
      · simp at h
      · split at h
        · next e2 heq2 => simp at h
        · next s2 heq2 =>
          split at h
          · next e3 heq3 => simp at h
          · next s3 heq3 =>
            simp only [Prod.mk.injEq] at h
            obtain ⟨-, hs, hops⟩ := h
            obtain ⟨-, hnone, hs2⟩ := createTableRPC_ok_inv f.ctF s t s2 heq2
            obtain ⟨-, fams, hlf, hmem, hs3⟩ := createColumnFamilyRPC_ok_inv f.cfF s2 t cf s3 heq3
            subst hs2
            have hfams : fams = [] := by
              have : lookupT ((t, []) :: s) t = some [] := by simp [lookupT]
              rw [this] at hlf
              exact (Option.some.inj hlf).symm
            subst hfams
            have haddCF : addCF ((t, []) :: s) t cf = (t, [cf]) :: s := by simp [addCF]
            rw [haddCF] at hs3
            exact ⟨hs.symm.trans hs3, hops.symm, hnone⟩

/-- C1 (amended): after createTable returns success the named table exists;
when it was freshly created (the CreateTable RPC appears in the trace) it has
exactly the one given column family; when the existence check found it
already present, the admin state is unchanged, so the table keeps whatever
column families it already had, which need not include the given one. -/
theorem createTable_success_state (f : CreateTableFaults) (s : AdminState) (t cf : String)
    (s' : AdminState) (ops : List AdminOp)
    (h : createTable f s t cf = (.ok (), s', ops)) :
    (lookupT s' t).isSome = true ∧
    (AdminOp.createTableOp t ∈ ops → lookupT s' t = some [cf]) ∧
    (AdminOp.createTableOp t ∉ ops → s' = s) := by
  rcases createTable_ok_cases f s t cf s' ops h with ⟨hs, hops, hl⟩ | ⟨hs, hops, -⟩
  · subst hs; subst hops
    refine ⟨hl, fun hmem => ?_, fun _ => rfl⟩
    simp at hmem
  · subst hs; subst hops
    refine ⟨by simp [lookupT], fun _ => by simp [lookupT], fun hmem => ?_⟩
    simp at hmem

/-- C1 as stated fails on the code: with the table already present under a
different column family, createTable returns success yet the table does not
have the requested family cf1, only its prior family cf2. -/
theorem createTable_success_state_counterexample :
    (createTable ⟨none, none, none⟩ [("easwars-test-table", ["cf2"])] "easwars-test-table" "cf1").1 =
      .ok () ∧
    lookupT (createTable ⟨none, none, none⟩ [("easwars-test-table", ["cf2"])] "easwars-test-table"
      "cf1").2.1 "easwars-test-table" = some ["cf2"] ∧
    "cf1" ∉ (["cf2"] : List String) := by decide

/-- Witness for C1: a concrete fresh-creation run satisfying the theorem's
hypothesis. -/
theorem createTable_success_state_witness :
    (lookupT [("t", ["cf1"])] "t").isSome = true ∧
    (AdminOp.createTableOp "t" ∈
        [AdminOp.tableInfoOp "t", AdminOp.createTableOp "t", AdminOp.createCFOp "t" "cf1"] →
      lookupT [("t", ["cf1"])] "t" = some ["cf1"]) ∧
    (AdminOp.createTableOp "t" ∉
        [AdminOp.tableInfoOp "t", AdminOp.createTableOp "t", AdminOp.createCFOp "t" "cf1"] →
      ([("t", ["cf1"])] : AdminState) = []) :=
  createTable_success_state ⟨none, none, none⟩ [] "t" "cf1" [("t", ["cf1"])]
    [.tableInfoOp "t", .createTableOp "t", .createCFOp "t" "cf1"] (by decide)

/-- C2: in every createTable invocation, a successful existence check returns
success with no creation attempted and the state unchanged; a NotFound
existence check proceeds to the CreateTable RPC and then, exactly when that
succeeded, the CreateColumnFamily RPC; any other existence-check error (a
non-NotFound status or a non-status error) is propagated, wrapped with its
message, and no creation RPC is attempted. -/
theorem createTable_branch_behavior (f : CreateTableFaults) (s : AdminState) (t cf : String) :
    (tableInfoRPC f.tiF s t = .ok () →
      createTable f s t cf = (.ok (), s, [.tableInfoOp t])) ∧
    (∀ c m, tableInfoRPC f.tiF s t = .error (.statusErr c m) → c = notFoundCode →
      (createTable f s t cf).2.2 =
        [.tableInfoOp t, .createTableOp t] ++
          (if isOkE (createTableRPC f.ctF s t) = true then [.createCFOp t cf] else [])) ∧
    (∀ e, tableInfoRPC f.tiF s t = .error e → e.code? ≠ some notFoundCode →
      (createTable f s t cf).2.1 = s ∧
      (createTable f s t cf).2.2 = [.tableInfoOp t] ∧
      ∃ msg, (createTable f s t cf).1 = .error (.harnessErr msg) ∧
        strContains msg e.msgOf = true) := by
  refine ⟨?_, ?_, ?_⟩
  · intro h
    simp [createTable, h]
  · intro c m h hc
    subst hc
    simp only [createTable, h, BtError.code?]
    cases hct : createTableRPC f.ctF s t with
    | error e2 => simp [hct, isOkE]
    | ok s2 =>
      cases hcf : createColumnFamilyRPC f.cfF s2 t cf with
      | error e3 => simp [hct, hcf, isOkE]
      | ok s3 => simp [hct, hcf, isOkE]
  · intro e h hne
    cases e with
    | statusErr c m =>
      have hcne : c ≠ notFoundCode := by
        intro hcc
        exact hne (by simp [BtError.code?, hcc])
      simp only [createTable, h, BtError.code?, BtError.msgOf]
      rw [if_pos hcne]
      refine ⟨by trivial, by trivial, ?_⟩
      exact ⟨_, rfl, strContains_append_right _ _⟩
    | nonStatus m =>
      simp only [createTable, h, BtError.code?, BtError.msgOf]
      refine ⟨by trivial, by trivial, ?_⟩
      exact ⟨_, rfl, strContains_append_right _ _⟩
    | harnessErr m =>
      simp only [createTable, h, BtError.code?, BtError.msgOf]
      refine ⟨by trivial, by trivial, ?_⟩
      exact ⟨_, rfl, strContains_append_right _ _⟩

/-- Witness for C2: concrete runs exercising all three branches of the
theorem, with the existence check succeeding, failing NotFound, and failing
with a non-status error respectively. -/
theorem createTable_branch_behavior_witness :
    (createTable ⟨none, none, none⟩ [("t", ["x"])] "t" "cf" =
      (.ok (), [("t", ["x"])], [.tableInfoOp "t"])) ∧
    ((createTable ⟨none, none, none⟩ [] "t" "cf").2.2 =
      [.tableInfoOp "t", .createTableOp "t"] ++
        (if isOkE (createTableRPC none [] "t") = true then [.createCFOp "t" "cf"] else [])) ∧
    ((createTable ⟨some (.nonStatus "conn reset"), none, none⟩ [] "t" "cf").2.1 = [] ∧
      (createTable ⟨some (.nonStatus "conn reset"), none, none⟩ [] "t" "cf").2.2 =
        [.tableInfoOp "t"] ∧
      ∃ msg, (createTable ⟨some (.nonStatus "conn reset"), none, none⟩ [] "t" "cf").1 =
        .error (.harnessErr msg) ∧ strContains msg (BtError.nonStatus "conn reset").msgOf = true) :=
  ⟨(createTable_branch_behavior ⟨none, none, none⟩ [("t", ["x"])] "t" "cf").1 (by decide),
   (createTable_branch_behavior ⟨none, none, none⟩ [] "t" "cf").2.1 notFoundCode
     ("table " ++ "t" ++ " not found") (by decide) rfl,
   (createTable_branch_behavior ⟨some (.nonStatus "conn reset"), none, none⟩ [] "t" "cf").2.2
     (.nonStatus "conn reset") (by decide) (by decide)⟩

theorem natRepr0 : Nat.repr 0 = "0" := rfl

theorem natRepr1 : Nat.repr 1 = "1" := rfl

theorem natRepr2 : Nat.repr 2 = "2" := rfl

/-- C5: a successful writeToTable applies exactly three one-cell mutations,
in order, to the row keys built by appending the decimal indices 0, 1 and 2
to the configured row-key prefix, each cell in the configured column family
and qualifier with the timestamp read at that iteration, and the final table
state is the initial one with exactly those mutations applied. -/
theorem writeToTable_success (openOk : Bool) (fa : Nat → Option BtError) (clock : Nat → Nat)
    (st : TableState) (tableID cf cq pre : String) (st' : TableState)
    (tr : List (String × List Cell))
    (h : writeToTable openOk fa clock st tableID cf cq pre = (.ok (), st', tr)) :
    tr = [(pre ++ "0", [⟨cf, cq, clock 0, "Hello World!"⟩]),
          (pre ++ "1", [⟨cf, cq, clock 1, "Hello Bigtable!"⟩]),
          (pre ++ "2", [⟨cf, cq, clock 2, "Hello Golang!"⟩])] ∧
    st' = applyMut (applyMut (applyMut st (pre ++ "0") [⟨cf, cq, clock 0, "Hello World!"⟩])
            (pre ++ "1") [⟨cf, cq, clock 1, "Hello Bigtable!"⟩])
            (pre ++ "2") [⟨cf, cq, clock 2, "Hello Golang!"⟩] := by
  cases openOk with
  | false => simp [writeToTable] at h
  | true =>
    simp only [writeToTable, greetings, if_true] at h
    simp only [writeLoop, sprintfSD, natRepr0, natRepr1, natRepr2] at h
    cases h0 : fa 0 with
    | some e => rw [h0] at h; simp at h
    | none =>
      rw [h0] at h
      cases h1 : fa 1 with
      | some e => rw [h1] at h; simp at h
      | none =>
        rw [h1] at h
        cases h2 : fa 2 with
        | some e => rw [h2] at h; simp at h
        | none =>
          rw [h2] at h
          simp only [writeLoop, Prod.mk.injEq] at h
          obtain ⟨-, hst, htr⟩ := h
          exact ⟨htr.symm, hst.symm⟩

/-- Witness for C5: a concrete fault-free run satisfying the theorem's
hypothesis. -/
theorem writeToTable_success_witness :
    (writeToTable true (fun _ => none) (fun j => j) [] "tbl" "cf1" "greeting" "row_key_" =
      (.ok (),
       [("row_key_0", [⟨"cf1", "greeting", 0, "Hello World!"⟩]),
        ("row_key_1", [⟨"cf1", "greeting", 1, "Hello Bigtable!"⟩]),
        ("row_key_2", [⟨"cf1", "greeting", 2, "Hello Golang!"⟩])],
       [("row_key_0", [⟨"cf1", "greeting", 0, "Hello World!"⟩]),
        ("row_key_1", [⟨"cf1", "greeting", 1, "Hello Bigtable!"⟩]),
        ("row_key_2", [⟨"cf1", "greeting", 2, "Hello Golang!"⟩])])) ∧
    (([("row_key_0", [⟨"cf1", "greeting", 0, "Hello World!"⟩]),
       ("row_key_1", [⟨"cf1", "greeting", 1, "Hello Bigtable!"⟩]),
       ("row_key_2", [⟨"cf1", "greeting", 2, "Hello Golang!"⟩])] :
        List (String × List Cell)) =
      [("row_key_" ++ "0", [⟨"cf1", "greeting", 0, "Hello World!"⟩]),
       ("row_key_" ++ "1", [⟨"cf1", "greeting", 1, "Hello Bigtable!"⟩]),
       ("row_key_" ++ "2", [⟨"cf1", "greeting", 2, "Hello Golang!"⟩])] ∧
     ([("row_key_0", [⟨"cf1", "greeting", 0, "Hello World!"⟩]),
       ("row_key_1", [⟨"cf1", "greeting", 1, "Hello Bigtable!"⟩]),
       ("row_key_2", [⟨"cf1", "greeting", 2, "Hello Golang!"⟩])] :
        TableState) =
      applyMut (applyMut (applyMut [] ("row_key_" ++ "0")
          [⟨"cf1", "greeting", 0, "Hello World!"⟩])
        ("row_key_" ++ "1") [⟨"cf1", "greeting", 1, "Hello Bigtable!"⟩])
        ("row_key_" ++ "2") [⟨"cf1", "greeting", 2, "Hello Golang!"⟩]) := by
  refine ⟨by decide, ?_⟩
  exact writeToTable_success true (fun _ => none) (fun j => j) [] "tbl" "cf1" "greeting"
    "row_key_" _ _ (by decide)

/-- C10: writeToTable is not atomic across rows: when the Apply for index i
is the first to fail, the call returns that error at once, exactly the keys
for indices 0 through i were attempted (none beyond i), and the final table
state still holds the mutations applied for the indices below i, with no
rollback. -/
theorem writeToTable_partial (fa : Nat → Option BtError) (clock : Nat → Nat) (st : TableState)
    (tableID cf cq pre : String) (i : Nat) (e : BtError)
    (hi : i < 3) (hbefore : ∀ j, j < i → fa j = none) (hfail : fa i = some e) :
    (writeToTable true fa clock st tableID cf cq pre).1 = .error e ∧
    ((writeToTable true fa clock st tableID cf cq pre).2.2.map Prod.fst =
      (List.range (i + 1)).map fun j => pre ++ Nat.repr j) ∧
    ((writeToTable true fa clock st tableID cf cq pre).2.1 =
      List.foldl (fun s j => applyMut s (pre ++ Nat.repr j) [⟨cf, cq, clock j, greetings.getD j ""⟩])
        st (List.range i)) := by
  interval_cases i
  · simp [writeToTable, greetings, writeLoop, hfail, sprintfSD, List.range_succ]
  · have h0 : fa 0 = none := hbefore 0 (by omega)
    simp [writeToTable, greetings, writeLoop, h0, hfail, sprintfSD, List.range_succ]
  · have h0 : fa 0 = none := hbefore 0 (by omega)
    have h1 : fa 1 = none := hbefore 1 (by omega)
    simp [writeToTable, greetings, writeLoop, h0, h1, hfail, sprintfSD, List.range_succ]

/-- Witness for C10: a concrete run whose second Apply fails. -/
theorem writeToTable_partial_witness :
    (writeToTable true (fun j => if j = 1 then some (.statusErr 14 "unavailable") else none)
      (fun j => j) [] "tbl" "cf1" "greeting" "row_key_").1 =
        .error (.statusErr 14 "unavailable") ∧
    ((writeToTable true (fun j => if j = 1 then some (.statusErr 14 "unavailable") else none)
      (fun j => j) [] "tbl" "cf1" "greeting" "row_key_").2.2.map Prod.fst =
        (List.range 2).map fun j => "row_key_" ++ Nat.repr j) ∧
    ((writeToTable true (fun j => if j = 1 then some (.statusErr 14 "unavailable") else none)
      (fun j => j) [] "tbl" "cf1" "greeting" "row_key_").2.1 =
        List.foldl (fun s j => applyMut s ("row_key_" ++ Nat.repr j)
          [⟨"cf1", "greeting", (fun j : Nat => j) j, greetings.getD j ""⟩]) [] (List.range 1)) :=
  writeToTable_partial (fun j => if j = 1 then some (.statusErr 14 "unavailable") else none)
    (fun j => j) [] "tbl" "cf1" "greeting" "row_key_" 1 (.statusErr 14 "unavailable")
    (by decide) (by intro j hj; interval_cases j; rfl) rfl

/-- C6: on the success path the single-row read queries exactly the row key
built from the configured prefix and index 0, which is also the first row
key writeToTable attempts; the subsequent scan visits exactly the rows whose
keys start with the configured prefix (the callback never stops the scan
early) and prints every cell of every row visited. -/
theorem read_stage (st st2 : TableState) (pre tableID tableID2 cf cq : String)
    (fa : Nat → Option BtError) (clock : Nat → Nat) :
    (readSingleRowFromTable true none st tableID pre).2.1 = some (pre ++ "0") ∧
    ((writeToTable true fa clock st2 tableID2 cf cq pre).2.2.map Prod.fst).head? =
      some (pre ++ "0") ∧
    (readEntireTable true none st tableID pre).2.1 =
      st.filter (fun r => String.isPrefixOf pre r.1) ∧
    (readEntireTable true none st tableID pre).2.2 =
      (st.filter fun r => String.isPrefixOf pre r.1).flatMap fun r => printCells r.1 r.2 := by
  refine ⟨?_, ?_, ?_, ?_⟩
  · simp [readSingleRowFromTable, sprintfSD, natRepr0]
  · simp only [writeToTable, greetings, if_true]
    simp only [writeLoop, sprintfSD, natRepr0]
    cases h0 : fa 0 with
    | some e => simp [h0]
    | none => simp [h0]
  · simp [readEntireTable, prefixRange, runScan_const_true]
  · simp [readEntireTable, prefixRange, runScan_const_true]

set_option maxRecDepth 200000

set_option maxHeartbeats 2000000

theorem createDataClient_eq (p inst ep ap : String) (e : Bool) :
    createDataClient p inst ep ap e none none =
      .ok { project := p, instanceID := inst,
            conn := { endpoint := ep, opts := dialOptionsFor e },
            appProfile := if ap = "" then none else some ap } := by
  by_cases h : ap = "" <;> simp [createDataClient, h]

/-- C9: createDataClient treats an empty app-profile flag as unspecified,
building the client without any profile configuration, while a non-empty
app-profile string is passed through in the client configuration. -/
theorem createDataClient_appProfile (p inst ep ap : String) (e : Bool) :
    createDataClient p inst ep ap e none none =
      .ok { project := p, instanceID := inst,
            conn := { endpoint := ep, opts := dialOptionsFor e },
            appProfile := if ap = "" then none else some ap } :=
  createDataClient_eq p inst ep ap e

/-- C3: the service-config document handed to the transport is exactly the
static template with its two %s verbs substituted, the first always with the
RLS endpoint and the second with the chosen default target; the template has
exactly two verbs, and the fixed recognized fields (lookup timeout 10s,
maxAge 300s, staleAge 240s, cacheSizeBytes 1000) are constants of the
template. The document is a plain string the harness hands over verbatim,
never parsed or validated. -/
theorem createDataClient_serviceConfig (p inst ep ap : String) (e : Bool) :
    (∀ cs, createDataClient p inst ep ap e none none = .ok cs →
      cs.conn.opts.defaultServiceConfig =
        sprintf2 serviceConfigTmpl cbtRLSTestEndpoint (if e then rlsDefaultTarget else "")) ∧
    verbCount serviceConfigTmpl.data = 2 ∧
    strContains (dialOptionsFor e).defaultServiceConfig
      ("\"lookupService\": " ++ goQuote cbtRLSTestEndpoint) = true ∧
    strContains serviceConfigTmpl "\"lookupServiceTimeout\" : \"10s\"" = true ∧
    strContains serviceConfigTmpl "\"maxAge\": \"300s\"" = true ∧
    strContains serviceConfigTmpl "\"staleAge\" : \"240s\"" = true ∧
    strContains serviceConfigTmpl "\"cacheSizeBytes\": 1000" = true := by
  refine ⟨?_, by decide, ?_, by decide, by decide, by decide, by decide⟩
  · intro cs h
    rw [createDataClient_eq] at h
    obtain rfl := (Except.ok.inj h)
    rfl
  · cases e <;> decide

/-- Witness for C3: a concrete client construction satisfying the
hypothesis of the substitution conjunct. -/
theorem createDataClient_serviceConfig_witness :
    ({ project := "p", instanceID := "i",
       conn := { endpoint := "ep", opts := dialOptionsFor false }, appProfile := none } :
      ClientSpec).conn.opts.defaultServiceConfig =
      sprintf2 serviceConfigTmpl cbtRLSTestEndpoint (if false then rlsDefaultTarget else "") :=
  (createDataClient_serviceConfig "p" "i" "ep" "" false).1
    { project := "p", instanceID := "i",
      conn := { endpoint := "ep", opts := dialOptionsFor false }, appProfile := none }
    (by rfl)

/-- C4: the defaultTarget field of the rendered service config is the fixed
RLS default target when enable_default_target is set and the empty string
otherwise, and the harness never turns the empty default target into an
error: client construction fails exactly when one of the injected external
faults fires, independently of the flag and of the app profile. -/
theorem createDataClient_defaultTarget (p inst ep ap : String) :
    strContains (dialOptionsFor true).defaultServiceConfig
      ("\"defaultTarget\": " ++ goQuote rlsDefaultTarget) = true ∧
    strContains (dialOptionsFor false).defaultServiceConfig "\"defaultTarget\": \"\"" = true ∧
    (∀ (e : Bool) (dF nF : Option BtError),
      isOkE (createDataClient p inst ep ap e dF nF) = (dF.isNone && nF.isNone)) := by
  refine ⟨by decide, by decide, ?_⟩
  intro e dF nF
  cases dF with
  | some d => simp [createDataClient, isOkE]
  | none =>
    cases nF with
    | some n => simp [createDataClient, isOkE]
    | none =>
      by_cases hap : ap = "" <;> simp [createDataClient, isOkE, hap]

theorem deleteTableRPC_ok_inv (fault : Option BtError) (s : AdminState) (t : String)
    (s2 : AdminState) (h : deleteTableRPC fault s t = .ok s2) :
    fault = none ∧ s2 = removeT s t := by
  unfold deleteTableRPC at h
  cases fault with
  | some e => simp at h
  | none =>
    by_cases hl : (lookupT s t).isSome
    · rw [if_pos hl] at h
      exact ⟨rfl, (Except.ok.inj h).symm⟩
    · rw [if_neg hl] at h; simp at h

/-- C7: with the skip_table_deletion flag set, the run never invokes table
deletion and, when it finishes successfully, the table is still present in
the final admin state; with the flag unset, a successful run invokes
deletion and the table is gone from the final admin state. -/
theorem mainRun_teardown (cfg : MainConfig) (f : MainFaults) (clock : Nat → Nat)
    (a : AdminState) (d : TableState) :
    (cfg.skipTableDeletion = true →
      (MainOp.opDelete ∉ (mainRun cfg f clock a d).2.2.1 ∧
        ((mainRun cfg f clock a d).2.2.2 = true →
          (lookupT (mainRun cfg f clock a d).1 cfg.tableID).isSome = true))) ∧
    (cfg.skipTableDeletion = false → (mainRun cfg f clock a d).2.2.2 = true →
      (MainOp.opDelete ∈ (mainRun cfg f clock a d).2.2.1 ∧
        lookupT (mainRun cfg f clock a d).1 cfg.tableID = none)) := by
  unfold mainRun
  split
  · exact ⟨fun _ => ⟨by simp, by simp⟩, fun _ hok => by simp at hok⟩
  · split
    · exact ⟨fun _ => ⟨by simp, by simp⟩, fun _ hok => by simp at hok⟩
    · split
      · exact ⟨fun _ => ⟨by simp, by simp⟩, fun _ hok => by simp at hok⟩
      · next u a1 ops heqct =>
        split
        · exact ⟨fun _ => ⟨by simp, by simp⟩, fun _ hok => by simp at hok⟩
        · split
          · exact ⟨fun _ => ⟨by simp, by simp⟩, fun _ hok => by simp at hok⟩
          · split
            · exact ⟨fun _ => ⟨by simp, by simp⟩, fun _ hok => by simp at hok⟩
            · split
              · next hskip =>
                refine ⟨fun _ => ⟨by simp, fun _ => ?_⟩, fun h2 _ => ?_⟩
                · cases u
                  rcases createTable_ok_cases f.adminF a cfg.tableID cfg.columnFamily a1 ops
                      heqct with ⟨h1, -, hl⟩ | ⟨h1, -, -⟩
                  · subst h1; exact hl
                  · subst h1; simp [lookupT]
                · rw [h2] at hskip; simp at hskip
              · next hskip =>
                split
                · refine ⟨fun h1 => absurd h1 hskip, fun _ hok => by simp at hok⟩
                · next a2 heqd =>
                  refine ⟨fun h1 => absurd h1 hskip, fun _ _ => ⟨by simp, ?_⟩⟩
                  obtain ⟨-, h2⟩ := deleteTableRPC_ok_inv f.delF a1 cfg.tableID a2 heqd
                  subst h2
                  exact lookupT_removeT_self a1 cfg.tableID

/-- Witness for C7: two concrete fault-free runs, one with the skip flag set
and one without. -/
theorem mainRun_teardown_witness :
    (MainOp.opDelete ∉
        (mainRun ⟨"p", "i", "t", "cf", "cq", "rk_", "", false, true⟩
          ⟨none, none, none, ⟨none, none, none⟩, true, fun _ => none, true, none, true, none, none⟩
          (fun j => j) [] []).2.2.1 ∧
      ((mainRun ⟨"p", "i", "t", "cf", "cq", "rk_", "", false, true⟩
          ⟨none, none, none, ⟨none, none, none⟩, true, fun _ => none, true, none, true, none, none⟩
          (fun j => j) [] []).2.2.2 = true →
        (lookupT (mainRun ⟨"p", "i", "t", "cf", "cq", "rk_", "", false, true⟩
          ⟨none, none, none, ⟨none, none, none⟩, true, fun _ => none, true, none, true, none, none⟩
          (fun j => j) [] []).1 "t").isSome = true)) ∧
    (MainOp.opDelete ∈
        (mainRun ⟨"p", "i", "t", "cf", "cq", "rk_", "", false, false⟩
          ⟨none, none, none, ⟨none, none, none⟩, true, fun _ => none, true, none, true, none, none⟩
          (fun j => j) [] []).2.2.1 ∧
      lookupT (mainRun ⟨"p", "i", "t", "cf", "cq", "rk_", "", false, false⟩
          ⟨none, none, none, ⟨none, none, none⟩, true, fun _ => none, true, none, true, none, none⟩
          (fun j => j) [] []).1 "t" = none) :=
  ⟨(mainRun_teardown ⟨"p", "i", "t", "cf", "cq", "rk_", "", false, true⟩
      ⟨none, none, none, ⟨none, none, none⟩, true, fun _ => none, true, none, true, none, none⟩
      (fun j => j) [] []).1 rfl,
   (mainRun_teardown ⟨"p", "i", "t", "cf", "cq", "rk_", "", false, false⟩
      ⟨none, none, none, ⟨none, none, none⟩, true, fun _ => none, true, none, true, none, none⟩
      (fun j => j) [] []).2 rfl (by decide)⟩

theorem resolveRoute_find (rules : List Rule) (dflt : String) (k : List String) (r : Rule)
    (hfind : List.find? (fun r => r.pat.matchesKey k) rules = some r) :
    resolveRoute rules dflt k = .ok r.target := by
  induction rules with
  | nil => simp at hfind
  | cons r0 rs ih =>
    by_cases hm : r0.pat.matchesKey k = true
    · simp only [List.find?, hm, Option.some.injEq] at hfind
      subst hfind
      simp [resolveRoute, hm]
    · simp only [List.find?, hm] at hfind
      simp [resolveRoute, hm, ih hfind]

/-- C8 (spec-modelled): when a route key matches more than one rule of the
table, the resolver returns the target of the earliest-inserted matching
rule, the first match in table order. -/
theorem resolveRoute_first_match (rules : List Rule) (dflt : String) (k : List String) (r : Rule)
    (hmulti : 1 < matchCount rules k)
    (hfind : List.find? (fun r => r.pat.matchesKey k) rules = some r) :
    resolveRoute rules dflt k = .ok r.target :=
  resolveRoute_find rules dflt k r hfind

/-- Witness for C8: the two-rule table of spec scenario 5, where both the
exact rule and the wildcard match the key and the earlier rule wins. -/
theorem resolveRoute_first_match_witness :
    1 < matchCount ([⟨.exact ["A"], "T1"⟩, ⟨.wildcard, "T2"⟩] : List Rule) ["A"] ∧
    List.find? (fun r => r.pat.matchesKey ["A"])
      ([⟨.exact ["A"], "T1"⟩, ⟨.wildcard, "T2"⟩] : List Rule) =
      some ⟨.exact ["A"], "T1"⟩ ∧
    resolveRoute ([⟨.exact ["A"], "T1"⟩, ⟨.wildcard, "T2"⟩] : List Rule) "" ["A"] = .ok "T1" :=
  ⟨by decide, by decide,
   resolveRoute_first_match ([⟨.exact ["A"], "T1"⟩, ⟨.wildcard, "T2"⟩] : List Rule) "" ["A"]
     ⟨.exact ["A"], "T1"⟩ (by decide) (by decide)⟩
